import Mathlib

/-!
Verification of `src/pagerduty-mtta-analysis.py`.

The Python source is shallowly embedded below: pure helpers become Lean
functions over `ℚ` / `Nat` / `String`; the HTTP layer is modelled by an
oracle assigning an outcome to every attempt index; the spreadsheet is a
cell map; sleeps performed by the retry loop are recorded in a trace.
-/

namespace MTTA

/-- Python's builtin `round` (banker's rounding, half to even) on a rational,
returning the nearest integer. -/
def roundHalfEven (q : ℚ) : ℤ :=
  let f := ⌊q⌋
  let r := q - (f : ℚ)
  if r < 1/2 then f
  else if 1/2 < r then f + 1
  else if f % 2 = 0 then f else f + 1

/-- Python `round(x, 2)`: round to 2 decimal places. -/
def round2 (q : ℚ) : ℚ := (roundHalfEven (q * 100) : ℚ) / 100

/-- `seconds_to_minutes` (source lines 11-25): `None` propagates, otherwise
divide by 60 and round to 2 decimal places. -/
def seconds_to_minutes : Option ℚ → Option ℚ
  | none => none
  | some seconds => some (round2 (seconds / 60))

/-- The `month_map` dictionary lookup with default 1
(`month_map.get(month_name, 1)`, source lines 38-44). -/
def month_map (month_name : String) : Nat :=
  if month_name = "Jan" then 1
  else if month_name = "Feb" then 2
  else if month_name = "Mar" then 3
  else if month_name = "Apr" then 4
  else if month_name = "May" then 5
  else if month_name = "Jun" then 6
  else if month_name = "Jul" then 7
  else if month_name = "Aug" then 8
  else if month_name = "Sep" then 9
  else if month_name = "Oct" then 10
  else if month_name = "Nov" then 11
  else if month_name = "Dec" then 12
  else 1

/-- The twelve recognized month codes (the keys of `month_map`). -/
def monthCodes : List String :=
  ["Jan", "Feb", "Mar", "Apr", "May", "Jun",
   "Jul", "Aug", "Sep", "Oct", "Nov", "Dec"]

/-- CPython `calendar.isleap`. -/
def isleap (year : Nat) : Bool :=
  decide (year % 4 = 0 ∧ (year % 100 ≠ 0 ∨ year % 400 = 0))

/-- CPython `calendar.monthrange(year, month)[1]`: number of days in the
month, from the `mdays` table plus the February leap adjustment. -/
def monthrange (year month : Nat) : Nat :=
  [0, 31, 28, 31, 30, 31, 30, 31, 31, 30, 31, 30, 31].getD month 0 +
    (if month = 2 ∧ isleap year = true then 1 else 0)

/-- A Python `datetime.datetime` value (date plus time-of-day). -/
structure PyDateTime where
  year : Nat
  month : Nat
  day : Nat
  hour : Nat
  minute : Nat
  second : Nat
deriving DecidableEq

/-- Zero-padded 2-digit field (`%m` / `%d`). -/
def pad2 (n : Nat) : String :=
  if n < 10 then "0" ++ toString n else toString n

/-- Zero-padded 4-digit field (`%Y`). -/
def pad4 (n : Nat) : String :=
  if n < 10 then "000" ++ toString n
  else if n < 100 then "00" ++ toString n
  else if n < 1000 then "0" ++ toString n
  else toString n

/-- `strftime("%Y-%m-%dT00:00:00.000000Z")`: only the date fields of the
datetime are used; the time-of-day part of the output is the literal
midnight string from the format. -/
def strftimeFixedMidnight (d : PyDateTime) : String :=
  pad4 d.year ++ "-" ++ pad2 d.month ++ "-" ++ pad2 d.day ++ "T00:00:00.000000Z"

/-- `first_day = datetime(year, month_num, 1)` (source line 47). -/
def first_day (year month_num : Nat) : PyDateTime :=
  ⟨year, month_num, 1, 0, 0, 0⟩

/-- `last_day = datetime(year, month_num, monthrange(...)[1], 23, 59, 59)`
(source line 50). -/
def last_day (year month_num : Nat) : PyDateTime :=
  ⟨year, month_num, monthrange year month_num, 23, 59, 59⟩

/-- `get_date_range_for_month` (source lines 27-56). -/
def get_date_range_for_month (month_name : String) (year : Nat) : String × String :=
  let month_num := month_map month_name
  (strftimeFixedMidnight (first_day year month_num),
   strftimeFixedMidnight (last_day year month_num))

/-- Spec-side days-in-month, written directly from the standard
days-in-month / leap-year rules (independent of the source's
`calendar.monthrange` table). -/
def specDaysInMonth (year month : Nat) : Nat :=
  if month = 2 then
    (if (year % 4 = 0 ∧ year % 100 ≠ 0) ∨ year % 400 = 0 then 29 else 28)
  else if month = 4 ∨ month = 6 ∨ month = 9 ∨ month = 11 then 30
  else 31

/-- A spreadsheet cell payload: openpyxl cell values relevant here are
strings or numbers (a missing value is `Option.none` at the use site). -/
inductive CellVal where
  | str (s : String)
  | num (q : ℚ)
deriving DecidableEq

/-- Python truthiness of a cell value, as tested by `if not id_value`. -/
def truthy : Option CellVal → Bool
  | none => false
  | some (.str s) => decide (s ≠ "")
  | some (.num q) => decide (q ≠ 0)

/-- The `existing_value is not None and existing_value != ""` test
(source line 292): a numeric value always counts as present. -/
def hasExistingValue : Option CellVal → Bool
  | none => false
  | some (.str s) => decide (s ≠ "")
  | some (.num _) => true

/-- The request payload built per row (source lines 305-311). -/
structure Payload where
  escalation_policy_ids : List (Option CellVal)
  created_at_start : String
  created_at_end : String
deriving DecidableEq

/-- Payload construction in the orchestrator loop (source lines 299-311):
the date range is computed with the literal year `2025` (line 303). -/
def build_payload (month : String) (id_value : Option CellVal) : Payload :=
  let range := get_date_range_for_month month 2025
  ⟨[id_value], range.1, range.2⟩

/-- One entry of the response `data` array; both fields are produced by
`dict.get`, hence optional. -/
structure ApiEntry where
  mean_seconds_to_first_ack : Option ℚ
  total_incident_count : Option ℤ
deriving DecidableEq

/-- A parsed response body; the `data` key may be absent. -/
structure ApiResponse where
  data : Option (List ApiEntry)
deriving DecidableEq

/-- Outcome of one HTTP POST attempt, abstracting `requests.post`:
a 200 body, a 429 with optional `Retry-After` header, a timeout, a
connection error, or any other request failure (including non-200
statuses surfaced by `raise_for_status`). -/
inductive HttpOutcome where
  | ok (body : ApiResponse)
  | rateLimited (retryAfter : Option Nat)
  | timeout
  | connectionError
  | otherError
deriving DecidableEq

/-- Terminal failures `make_api_request` can raise: the wrapped
`RequestException` after exhausted timeout retries (line 130), after
exhausted connection retries (line 142), the re-raised terminal request
exception (line 155), and the post-loop failure (line 164). -/
inductive FetchError where
  | exhaustedTimeout
  | exhaustedConnection
  | reraisedRequestError
  | exhaustedLoop
deriving DecidableEq

/-- A `time.sleep` performed by the fetch loop: the per-request throttle,
the 429 retry-after wait, the timeout wait (`retry_delay * 2`), or the
connection/other-failure wait (`retry_delay + jitter`). -/
inductive SleepEvent where
  | throttle (d : ℚ)
  | rateLimitWait (d : Nat)
  | timeoutWait (d : Nat)
  | backoffWait (d : ℚ)
deriving DecidableEq

/-- Environment oracle for one fetch call: the `random.randint` stream,
the `random.uniform(0, 2)` jitter stream, and the HTTP outcome of each
attempt (indexed by the value of `retry_count` when the attempt is made). -/
structure Oracle where
  rng : Nat → Nat
  jitter : Nat → ℚ
  http : Nat → HttpOutcome

/-- `random.randint(lo, hi)` driven by one draw `g` of the stream:
always lands in `[lo, hi]`. -/
def randint (lo hi g : Nat) : Nat := lo + g % (hi + 1 - lo)

/-- `max_retries = 7` (source line 89). -/
def max_retries : Nat := 7

/-- The `while retry_count < max_retries` loop of `make_api_request`
(source lines 93-164).  `fuel` counts the remaining loop iterations and
equals `max_retries - retry_count` at every call, so `fuel = 0` exactly
when the loop guard fails and line 164 raises.  The accumulated `trace`
records every sleep; each iteration first sleeps the inter-request
throttle `delay` (line 96). -/
def apiLoop (o : Oracle) (delay : ℚ) (fuel : Nat) (retry_count retry_delay : Nat)
    (trace : List SleepEvent) : Except FetchError ApiResponse × List SleepEvent :=
  match fuel with
  | 0 => (.error .exhaustedLoop, trace)
  | fuel + 1 =>
    let trace := trace ++ [.throttle delay]
    match o.http retry_count with
    | .ok body => (.ok body, trace)
    | .rateLimited retryAfter =>
        let retry_after := retryAfter.getD retry_delay
        apiLoop o delay fuel (retry_count + 1) (min (retry_delay * 2) 120)
          (trace ++ [.rateLimitWait retry_after])
    | .timeout =>
        if retry_count + 1 ≥ max_retries then (.error .exhaustedTimeout, trace)
        else
          apiLoop o delay fuel (retry_count + 1) (min (retry_delay * 2) 120)
            (trace ++ [.timeoutWait (retry_delay * 2)])
    | .connectionError =>
        if retry_count + 1 ≥ max_retries then (.error .exhaustedConnection, trace)
        else
          apiLoop o delay fuel (retry_count + 1) (min (retry_delay * 2) 120)
            (trace ++ [.backoffWait ((retry_delay : ℚ) + o.jitter retry_count)])
    | .otherError =>
        if retry_count + 1 ≥ max_retries then (.error .reraisedRequestError, trace)
        else
          apiLoop o delay fuel (retry_count + 1) (min (retry_delay * 2) 120)
            (trace ++ [.backoffWait ((retry_delay : ℚ) + o.jitter retry_count)])

/-- `make_api_request` (source lines 58-164).  In mock mode no HTTP
outcome is consulted and no sleep happens (lines 76-86); otherwise the
retry loop starts with `retry_count = 0` and `retry_delay = 3`. -/
def make_api_request (o : Oracle) (payload : Payload) (mock_api : Bool) (delay : ℚ) :
    Except FetchError ApiResponse × List SleepEvent :=
  if mock_api then
    (.ok ⟨some [⟨some ((randint 120 7200 (o.rng 0) : Nat) : ℚ),
                some ((randint 5 20 (o.rng 1) : Nat) : ℤ)⟩]⟩, [])
  else
    apiLoop o delay max_retries 0 3 []

/-- Whether a sleep event is the pre-request throttle; each loop
iteration (= each attempt) performs exactly one. -/
def isThrottle : SleepEvent → Bool
  | .throttle _ => true
  | _ => false

/-- Number of HTTP attempts made during a fetch, read off the trace. -/
def numAttempts (trace : List SleepEvent) : Nat :=
  (trace.filter isThrottle).length

/-- Extraction of `data[0].get('mean_seconds_to_first_ack')` guarded by
`'data' in data and len(data['data']) > 0` (source lines 191-196). -/
def extract_mean_seconds (data : ApiResponse) : Option ℚ :=
  match data.data with
  | some (first :: _) => first.mean_seconds_to_first_ack
  | _ => none

/-- `process_row` (source lines 167-206): any exception from the fetch is
caught and mapped to `None`; otherwise the mean seconds value is
extracted and converted to minutes. -/
def process_row (o : Oracle) (payload : Payload) (mock_api : Bool) (delay : ℚ) :
    Option ℚ :=
  match (make_api_request o payload mock_api delay).1 with
  | .error _ => none
  | .ok data => seconds_to_minutes (extract_mean_seconds data)

/-- The fetch result for a row, independent of the payload contents
(`make_api_request` never reads the payload in the model; the oracle
already fixes the provider's behaviour). -/
def rowFetchResult (oracles : Nat → Oracle) (mock_api : Bool) (delay : ℚ) (row : Nat) :
    Option ℚ :=
  process_row (oracles row) ⟨[], "", ""⟩ mock_api delay

/-- The in-memory workbook sheet: a (row, column)-indexed cell map with
openpyxl's 1-based `max_row` / `max_column`. -/
structure Sheet where
  cells : Nat → Nat → Option CellVal
  max_row : Nat
  max_column : Nat

/-- `cell.value = v` at (row, col). -/
def setCell (s : Sheet) (r c : Nat) (v : CellVal) : Sheet :=
  { s with cells := fun r' c' => if r' = r ∧ c' = c then some v else s.cells r' c' }

/-- `headers = [sheet.cell(row=1, column=col).value for col in
range(1, sheet.max_column + 1)]` (source line 240). -/
def headersList (s : Sheet) : List (Option CellVal) :=
  (List.range' 1 s.max_column).map (fun c => s.cells 1 c)

/-- Row-range resolution (source lines 270-278).  Python's
`if start_row and ...` treats `None` and `0` as false, hence the
explicit non-zero tests. -/
def resolveRowRange (start_row end_row : Option Nat) (max_row : Nat) : Nat × Nat :=
  let first_row := 2
  let last_row := max_row
  let first_row := match start_row with
    | some s => if s ≠ 0 ∧ first_row < s then s else first_row
    | none => first_row
  let last_row := match end_row with
    | some e => if e ≠ 0 ∧ e < last_row then e else last_row
    | none => last_row
  (first_row, last_row)

/-- `range(first_row, last_row + 1)` (source line 283). -/
def rowRangeList (first_row last_row : Nat) : List Nat :=
  List.range' first_row (last_row + 1 - first_row)

/-- The per-row context of the orchestrator loop: the per-row oracles and
the parameters threaded through source lines 283-334. -/
structure RowCtx where
  oracles : Nat → Oracle
  mock_api : Bool
  month : String
  force_update : Bool
  delay : ℚ
  id_col_idx : Nat
  month_col_idx : Nat

/-- The body of the orchestrator's `for row in ...` loop
(source lines 283-334).  Returns the updated sheet together with the
rows for which `process_row` was invoked and the writes performed.
A row is skipped silently without a fetch when its id cell is falsy
(line 285) or when a non-empty value exists and `force_update` is off
(line 292); on a `None` fetch result the cell is left untouched
(lines 330-334). -/
def processOneRow (ctx : RowCtx) (sheet : Sheet) (row : Nat) :
    Sheet × List Nat × List (Nat × ℚ) :=
  let id_value := sheet.cells row ctx.id_col_idx
  if truthy id_value = false then (sheet, [], [])
  else
    let existing_value := sheet.cells row ctx.month_col_idx
    if hasExistingValue existing_value = true ∧ ctx.force_update = false then
      (sheet, [], [])
    else
      let payload := build_payload ctx.month id_value
      match process_row (ctx.oracles row) payload ctx.mock_api ctx.delay with
      | some minutes_value =>
          (setCell sheet row ctx.month_col_idx (.num minutes_value),
           [row], [(row, minutes_value)])
      | none => (sheet, [row], [])

/-- The orchestrator loop over the resolved row range, accumulating the
fetch log and write log. -/
def runRows (ctx : RowCtx) : Sheet → List Nat → Sheet × List Nat × List (Nat × ℚ)
  | sheet, [] => (sheet, [], [])
  | sheet, row :: rest =>
    let step := processOneRow ctx sheet row
    let restRun := runRows ctx step.1 rest
    (restRun.1, step.2.1 ++ restRun.2.1, step.2.2 ++ restRun.2.2)

/-- Process environment for a run: whether the spreadsheet file exists
and the `PAGERDUTY_API_TOKEN` environment variable. -/
structure Env where
  file_exists : Bool
  api_token : Option String

/-- Outcome of a run: each early abort (missing file, unhandled
`ValueError` from `headers.index('id')`, missing month column, missing
token) ends the run with no save; only a completed run saves the final
sheet (source line 337). -/
inductive RunResult where
  | abortedFileMissing
  | abortedIdColumnMissing
  | abortedMonthColumnMissing
  | abortedMissingToken
  | completed (finalSheet : Sheet)

/-- The sheet persisted by `wb.save`, when any: only a completed run
writes the file. -/
def savedFile : RunResult → Option Sheet
  | .completed s => some s
  | _ => none

/-- `fetch_and_update_pagerduty_metrics` (source lines 209-338), over an
explicit environment, per-row oracles and the loaded sheet.  The
precondition checks happen in source order: file existence (line 231),
`headers.index('id')` (line 241), the month column lookup (lines
244-249), then the token check (lines 252-255); only then is the row
range resolved and the loop run, and the workbook saved once at the
end. -/
def fetch_and_update_pagerduty_metrics (env : Env) (oracles : Nat → Oracle)
    (sheet : Sheet) (mock_api : Bool) (month : String) (force_update : Bool)
    (delay : ℚ) (start_row end_row : Option Nat) (verify_ssl : Bool) :
    RunResult × List Nat × List (Nat × ℚ) :=
  if env.file_exists = false then (.abortedFileMissing, [], [])
  else
    let headers := headersList sheet
    match headers.findIdx? (fun h => decide (h = some (CellVal.str "id"))) with
    | none => (.abortedIdColumnMissing, [], [])
    | some idIdx =>
      match headers.findIdx? (fun h => decide (h = some (CellVal.str month))) with
      | none => (.abortedMonthColumnMissing, [], [])
      | some monthIdx =>
        if env.api_token = none ∧ mock_api = false then (.abortedMissingToken, [], [])
        else
          let range := resolveRowRange start_row end_row sheet.max_row
          let ctx : RowCtx :=
            ⟨oracles, mock_api, month, force_update, delay, idIdx + 1, monthIdx + 1⟩
          let result := runRows ctx sheet (rowRangeList range.1 range.2)
          (.completed result.1, result.2.1, result.2.2)

/-- The parsed CLI arguments (source lines 346-356), including the
`--year` flag (line 350). -/
structure Args where
  mock : Bool
  month : String
  force : Bool
  year : Int
  delay : ℚ
  start_row : Option Nat
  end_row : Option Nat
  no_verify_ssl : Bool

/-- The `__main__` invocation (source lines 369-377): every argument
except `year` is forwarded to the orchestrator. -/
def main_invocation (env : Env) (oracles : Nat → Oracle) (sheet : Sheet) (a : Args) :
    RunResult × List Nat × List (Nat × ℚ) :=
  fetch_and_update_pagerduty_metrics env oracles sheet a.mock a.month a.force
    a.delay a.start_row a.end_row (!a.no_verify_ssl)

/-! Concrete fixtures used to instantiate the theorems below. -/

/-- A response body carrying a 300-second mean over 7 incidents. -/
def demoResp : ApiResponse := ⟨some [⟨some 300, some 7⟩]⟩

/-- An oracle whose every HTTP attempt succeeds with `demoResp`. -/
def demoOracle : Oracle := ⟨fun _ => 0, fun _ => 0, fun _ => .ok demoResp⟩

/-- An oracle failing with connection errors on the first six attempts
and succeeding on the seventh. -/
def connThenOkOracle : Oracle :=
  ⟨fun _ => 0, fun _ => 0, fun k => if k < 6 then .connectionError else .ok demoResp⟩

/-- An oracle whose every HTTP attempt fails with a connection error. -/
def connFailOracle : Oracle := ⟨fun _ => 0, fun _ => 0, fun _ => .connectionError⟩

/-- An oracle whose every HTTP attempt is rate limited with a
`Retry-After: 9` header. -/
def rateLimitOracle : Oracle := ⟨fun _ => 0, fun _ => 0, fun _ => .rateLimited (some 9)⟩

/-- An empty request payload. -/
def emptyPayload : Payload := ⟨[], "", ""⟩

/-- Environment with the spreadsheet present and a token set. -/
def demoEnv : Env := ⟨true, some "tok"⟩

/-- Environment with the spreadsheet file missing. -/
def noFileEnv : Env := ⟨false, some "tok"⟩

/-- Environment with no `PAGERDUTY_API_TOKEN`. -/
def noTokenEnv : Env := ⟨true, none⟩

/-- A sheet with headers `name`, `id`, `Jan`, data rows 2..100 each with a
non-empty id and an empty `Jan` cell. -/
def demoSheet : Sheet :=
  ⟨fun r c =>
    if r = 1 ∧ c = 1 then some (.str "name")
    else if r = 1 ∧ c = 2 then some (.str "id")
    else if r = 1 ∧ c = 3 then some (.str "Jan")
    else if c = 2 ∧ 2 ≤ r ∧ r ≤ 100 then some (.str "EP1")
    else none, 100, 3⟩

/-- A two-column, two-row sheet: id in column 1 of row 2, month cell
(column 2) empty. -/
def tinySheet : Sheet :=
  ⟨fun r c => if r = 2 ∧ c = 1 then some (.str "EP") else none, 2, 2⟩

/-- A row context over `tinySheet` using mock mode with force-update on. -/
def tinyCtx : RowCtx :=
  ⟨fun _ => demoOracle, true, "Jan", true, 0, 1, 2⟩

/-! ## Theorems -/

/-- Unfolding equation for `runRows` on a nonempty row list. -/
theorem runRows_cons (ctx : RowCtx) (sheet : Sheet) (a : Nat) (rest : List Nat) :
    runRows ctx sheet (a :: rest) =
      ((runRows ctx (processOneRow ctx sheet a).1 rest).1,
       (processOneRow ctx sheet a).2.1 ++
         (runRows ctx (processOneRow ctx sheet a).1 rest).2.1,
       (processOneRow ctx sheet a).2.2 ++
         (runRows ctx (processOneRow ctx sheet a).1 rest).2.2) := rfl

/-- A loop-body step for row `r` writes no cell outside row `r`. -/
theorem processOneRow_cells_other (ctx : RowCtx) (sheet : Sheet) (r r' c : Nat)
    (h : r' ≠ r) :
    ((processOneRow ctx sheet r).1).cells r' c = sheet.cells r' c := by
  by_cases ht : truthy (sheet.cells r ctx.id_col_idx) = false
  · simp [processOneRow, ht]
  · by_cases hs : hasExistingValue (sheet.cells r ctx.month_col_idx) = true ∧
        ctx.force_update = false
    · simp [processOneRow, ht, hs]
    · rcases hres : process_row (ctx.oracles r)
          (build_payload ctx.month (sheet.cells r ctx.id_col_idx))
          ctx.mock_api ctx.delay with _ | v
      · simp [processOneRow, ht, hs, hres]
      · simp [processOneRow, ht, hs, hres, setCell, h]

/-- A loop-body step for row `r` logs fetches and writes only for `r`. -/
theorem processOneRow_log_mem (ctx : RowCtx) (sheet : Sheet) (r : Nat) :
    (∀ x ∈ (processOneRow ctx sheet r).2.1, x = r) ∧
    (∀ pr ∈ (processOneRow ctx sheet r).2.2, pr.1 = r) := by
  by_cases ht : truthy (sheet.cells r ctx.id_col_idx) = false
  · simp [processOneRow, ht]
  · by_cases hs : hasExistingValue (sheet.cells r ctx.month_col_idx) = true ∧
        ctx.force_update = false
    · simp [processOneRow, ht, hs]
    · rcases hres : process_row (ctx.oracles r)
          (build_payload ctx.month (sheet.cells r ctx.id_col_idx))
          ctx.mock_api ctx.delay with _ | v
      · simp [processOneRow, ht, hs, hres]
      · simp [processOneRow, ht, hs, hres]

/-- Rows outside the processed list keep all their cells. -/
theorem runRows_cells_not_mem (ctx : RowCtx) (rows : List Nat) (sheet : Sheet)
    (r c : Nat) (h : r ∉ rows) :
    ((runRows ctx sheet rows).1).cells r c = sheet.cells r c := by
  induction rows generalizing sheet with
  | nil => rfl
  | cons a rest ih =>
    simp only [List.mem_cons, not_or] at h
    rw [runRows_cons]
    exact (ih _ h.2).trans (processOneRow_cells_other ctx sheet a r c h.1)

/-- Every logged fetch belongs to a row of the processed list. -/
theorem runRows_fetched_mem (ctx : RowCtx) (rows : List Nat) (sheet : Sheet) :
    ∀ x ∈ (runRows ctx sheet rows).2.1, x ∈ rows := by
  induction rows generalizing sheet with
  | nil => simp [runRows]
  | cons a rest ih =>
    intro x hx
    rw [runRows_cons] at hx
    rcases List.mem_append.mp hx with hx | hx
    · exact ((processOneRow_log_mem ctx sheet a).1 x hx) ▸ List.mem_cons_self a rest
    · exact List.mem_cons_of_mem a (ih _ x hx)

/-- Every logged write belongs to a row of the processed list. -/
theorem runRows_writes_mem (ctx : RowCtx) (rows : List Nat) (sheet : Sheet) :
    ∀ pr ∈ (runRows ctx sheet rows).2.2, pr.1 ∈ rows := by
  induction rows generalizing sheet with
  | nil => simp [runRows]
  | cons a rest ih =>
    intro pr hpr
    rw [runRows_cons] at hpr
    rcases List.mem_append.mp hpr with hpr | hpr
    · exact ((processOneRow_log_mem ctx sheet a).2 pr hpr) ▸ List.mem_cons_self a rest
    · exact List.mem_cons_of_mem a (ih _ pr hpr)

/-- The loop body skips without fetching when a non-empty value exists
and force-update is off. -/
theorem processOneRow_skip (ctx : RowCtx) (sheet : Sheet) (r : Nat)
    (hid : truthy (sheet.cells r ctx.id_col_idx) = true)
    (hs : hasExistingValue (sheet.cells r ctx.month_col_idx) = true ∧
      ctx.force_update = false) :
    processOneRow ctx sheet r = (sheet, [], []) := by
  simp [processOneRow, hid, hs]

/-- When not skipped, the loop body fetches once and writes exactly on a
numeric result. -/
theorem processOneRow_fetch (ctx : RowCtx) (sheet : Sheet) (r : Nat)
    (hid : truthy (sheet.cells r ctx.id_col_idx) = true)
    (hs : ¬(hasExistingValue (sheet.cells r ctx.month_col_idx) = true ∧
      ctx.force_update = false)) :
    processOneRow ctx sheet r =
      match rowFetchResult ctx.oracles ctx.mock_api ctx.delay r with
      | some v => (setCell sheet r ctx.month_col_idx (.num v), [r], [(r, v)])
      | none => (sheet, [r], []) := by
  have hpay : process_row (ctx.oracles r)
      (build_payload ctx.month (sheet.cells r ctx.id_col_idx)) ctx.mock_api ctx.delay =
      rowFetchResult ctx.oracles ctx.mock_api ctx.delay r := rfl
  simp only [processOneRow, hid, hs, hpay]
  simp

/-- Bridge: the source's `calendar.monthrange` day count coincides with
the spec-side standard days-in-month / leap-year rules for real months. -/
theorem monthrange_eq_specDaysInMonth (y m : Nat) (h1 : 1 ≤ m) (h2 : m ≤ 12) :
    monthrange y m = specDaysInMonth y m := by
  interval_cases m <;>
    simp [monthrange, specDaysInMonth, isleap] <;>
    split_ifs <;> omega

/-- C10: `seconds_to_minutes` propagates absence, maps 120 s to 2.00 min
and 90 s to 1.50 min, and in general rounds `seconds / 60` to 2 decimal
places. -/
theorem c10_seconds_to_minutes :
    seconds_to_minutes none = none ∧
    seconds_to_minutes (some 120) = some 2 ∧
    seconds_to_minutes (some 90) = some (3/2) ∧
    ∀ s : ℚ, seconds_to_minutes (some s) = some (round2 (s / 60)) := by
  refine ⟨rfl, ?_, ?_, fun s => rfl⟩ <;>
    norm_num [seconds_to_minutes, round2, roundHalfEven]

/-- C9: an unrecognized month code does not fail; `get_date_range_for_month`
returns the range of January of the given year. -/
theorem c9_unrecognized_month_defaults_to_january (m : String) (y : Nat)
    (hm : m ∉ monthCodes) :
    get_date_range_for_month m y = get_date_range_for_month "Jan" y := by
  have hmap : month_map m = 1 := by
    simp only [monthCodes, List.mem_cons, List.mem_singleton, not_or] at hm
    obtain ⟨h1, h2, h3, h4, h5, h6, h7, h8, h9, h10, h11, h12⟩ := hm
    simp [month_map, h1, h2, h3, h4, h5, h6, h7, h8, h9, h10, h11, h12]
  have hjan : month_map "Jan" = 1 := by simp [month_map]
  simp [get_date_range_for_month, hmap, hjan]

/-- C9 witness at the concrete unrecognized code `"Foo"`. -/
theorem c9_witness :
    "Foo" ∉ monthCodes ∧
    get_date_range_for_month "Foo" 2025 = get_date_range_for_month "Jan" 2025 :=
  ⟨by decide, c9_unrecognized_month_defaults_to_january "Foo" 2025 (by decide)⟩

/-- C5: the CLI `--year` value is never forwarded to the orchestrator
(the run is invariant under changing it), and every per-row payload's
date window is computed with the literal year 2025. -/
theorem c5_year_flag_never_used (env : Env) (oracles : Nat → Oracle) (sheet : Sheet)
    (a : Args) (y1 y2 : Int) :
    main_invocation env oracles sheet { a with year := y1 } =
      main_invocation env oracles sheet { a with year := y2 } ∧
    ∀ (m : String) (id_value : Option CellVal),
      (build_payload m id_value).created_at_start =
        (get_date_range_for_month m 2025).1 ∧
      (build_payload m id_value).created_at_end =
        (get_date_range_for_month m 2025).2 :=
  ⟨rfl, fun _ _ => ⟨rfl, rfl⟩⟩

/-- C6: in mock mode the fetch returns (never raises) a body whose
first data entry has `mean_seconds_to_first_ack ∈ [120, 7200]` and
`total_incident_count ∈ [5, 20]`, performs no sleep, and is independent
of the HTTP layer (no network I/O). -/
theorem c6_mock_fetch (o : Oracle) (p : Payload) (d : ℚ) :
    (∃ ms : ℚ, ∃ cnt : ℤ,
      make_api_request o p true d = (.ok ⟨some [⟨some ms, some cnt⟩]⟩, []) ∧
      120 ≤ ms ∧ ms ≤ 7200 ∧ 5 ≤ cnt ∧ cnt ≤ 20) ∧
    (∀ (h1 h2 : Nat → HttpOutcome) (j1 j2 : Nat → ℚ),
      make_api_request ⟨o.rng, j1, h1⟩ p true d =
        make_api_request ⟨o.rng, j2, h2⟩ p true d) := by
  constructor
  · refine ⟨_, _, rfl, ?_, ?_, ?_, ?_⟩
    · exact_mod_cast Nat.le_add_right 120 (o.rng 0 % (7200 + 1 - 120))
    · have h : randint 120 7200 (o.rng 0) ≤ 7200 := by
        unfold randint
        have := Nat.mod_lt (o.rng 0) (y := 7081) (by norm_num)
        omega
      exact_mod_cast h
    · exact_mod_cast Nat.le_add_right 5 (o.rng 1 % (20 + 1 - 5))
    · have h : randint 5 20 (o.rng 1) ≤ 20 := by
        unfold randint
        have := Nat.mod_lt (o.rng 1) (y := 16) (by norm_num)
        omega
      exact_mod_cast h
  · intro _ _ _ _; rfl

/-- C4: for every recognized month code the returned window starts at the
first day of the month formatted at midnight UTC; the end string carries
the last calendar day computed by standard days-in-month / leap-year
rules (29 for Feb 2024) but is formatted with that day's 00:00:00
time-of-day even though the internal `last_day` datetime carries
23:59:59. -/
theorem c4_month_range_endpoints (m : String) (y : Nat) (hm : m ∈ monthCodes)
    (hy1 : 1 ≤ y) (hy2 : y ≤ 9999) :
    (get_date_range_for_month m y).1 =
      strftimeFixedMidnight ⟨y, month_map m, 1, 0, 0, 0⟩ ∧
    (get_date_range_for_month m y).2 =
      strftimeFixedMidnight ⟨y, month_map m, specDaysInMonth y (month_map m), 0, 0, 0⟩ ∧
    (last_day y (month_map m)).hour = 23 ∧
    (last_day y (month_map m)).minute = 59 ∧
    (last_day y (month_map m)).second = 59 ∧
    specDaysInMonth 2024 2 = 29 ∧
    (∃ datePart : String,
      (get_date_range_for_month m y).2 = datePart ++ "T00:00:00.000000Z") := by
  have hb : 1 ≤ month_map m ∧ month_map m ≤ 12 := by
    fin_cases hm <;> simp [month_map]
  have hr := monthrange_eq_specDaysInMonth y (month_map m) hb.1 hb.2
  refine ⟨rfl, ?_, rfl, rfl, rfl, by decide, ?_⟩
  · simp [get_date_range_for_month, last_day, strftimeFixedMidnight, hr]
  · exact ⟨pad4 y ++ "-" ++ pad2 (month_map m) ++ "-" ++
      pad2 (monthrange y (month_map m)), rfl⟩

/-- C4 witness at February 2024. -/
theorem c4_witness :
    "Feb" ∈ monthCodes ∧ 1 ≤ 2024 ∧ 2024 ≤ 9999 ∧
    ((get_date_range_for_month "Feb" 2024).1 =
      strftimeFixedMidnight ⟨2024, month_map "Feb", 1, 0, 0, 0⟩ ∧
     (get_date_range_for_month "Feb" 2024).2 =
      strftimeFixedMidnight
        ⟨2024, month_map "Feb", specDaysInMonth 2024 (month_map "Feb"), 0, 0, 0⟩ ∧
     (last_day 2024 (month_map "Feb")).hour = 23 ∧
     (last_day 2024 (month_map "Feb")).minute = 59 ∧
     (last_day 2024 (month_map "Feb")).second = 59 ∧
     specDaysInMonth 2024 2 = 29 ∧
     (∃ datePart : String,
        (get_date_range_for_month "Feb" 2024).2 = datePart ++ "T00:00:00.000000Z")) :=
  ⟨by decide, by decide, by decide,
   c4_month_range_endpoints "Feb" 2024 (by decide) (by decide) (by decide)⟩

/-- C1: for a row (occurring once in the processed range) with a truthy
id, the stored month-cell is overwritten iff (force-update or no
existing non-empty value) and the fetch produced a numeric result; with
an existing non-empty value and force-update off, zero fetches happen
and the value is unchanged; with force-update on, exactly one fetch is
attempted regardless of the existing value; and on fetch failure the
prior stored value is never cleared. -/
theorem c1_update_policy (ctx : RowCtx) (rows : List Nat) (sheet : Sheet) (row : Nat)
    (hcount : rows.count row = 1)
    (hid : truthy (sheet.cells row ctx.id_col_idx) = true) :
    ((∃ v, (row, v) ∈ (runRows ctx sheet rows).2.2) ↔
      ((ctx.force_update = true ∨
          hasExistingValue (sheet.cells row ctx.month_col_idx) = false) ∧
        (rowFetchResult ctx.oracles ctx.mock_api ctx.delay row).isSome = true)) ∧
    (∀ v, (row, v) ∈ (runRows ctx sheet rows).2.2 →
      rowFetchResult ctx.oracles ctx.mock_api ctx.delay row = some v ∧
      ((runRows ctx sheet rows).1).cells row ctx.month_col_idx =
        some (.num v)) ∧
    (hasExistingValue (sheet.cells row ctx.month_col_idx) = true →
      ctx.force_update = false →
      ((runRows ctx sheet rows).2.1.count row = 0 ∧
       ((runRows ctx sheet rows).1).cells row ctx.month_col_idx =
         sheet.cells row ctx.month_col_idx)) ∧
    (ctx.force_update = true → (runRows ctx sheet rows).2.1.count row = 1) ∧
    (rowFetchResult ctx.oracles ctx.mock_api ctx.delay row = none →
      ((runRows ctx sheet rows).1).cells row ctx.month_col_idx =
        sheet.cells row ctx.month_col_idx) ∧
    (¬ ((ctx.force_update = true ∨
          hasExistingValue (sheet.cells row ctx.month_col_idx) = false) ∧
        (rowFetchResult ctx.oracles ctx.mock_api ctx.delay row).isSome = true) →
      ((runRows ctx sheet rows).1).cells row ctx.month_col_idx =
        sheet.cells row ctx.month_col_idx) := by
  induction rows generalizing sheet with
  | nil => simp at hcount
  | cons a rest ih =>
    rcases eq_or_ne a row with rfl | hne
    · -- the row itself is processed here; it does not recur in `rest`
      have hnotmem : a ∉ rest := by
        rw [List.count_cons_self] at hcount
        exact List.count_eq_zero.mp (by omega)
      by_cases hskip : hasExistingValue (sheet.cells a ctx.month_col_idx) = true ∧
          ctx.force_update = false
      · have hstep := processOneRow_skip ctx sheet a hid hskip
        have hfet0 : (runRows ctx sheet (a :: rest)).2.1.count a = 0 := by
          rw [runRows_cons, hstep]
          exact List.count_eq_zero.mpr
            (fun hmem => hnotmem (runRows_fetched_mem ctx rest _ a (by simpa using hmem)))
        have hwr : ∀ v, (a, v) ∉ (runRows ctx sheet (a :: rest)).2.2 := by
          intro v hmem
          rw [runRows_cons, hstep] at hmem
          exact hnotmem (runRows_writes_mem ctx rest _ (a, v) (by simpa using hmem))
        have hcells : ((runRows ctx sheet (a :: rest)).1).cells a ctx.month_col_idx =
            sheet.cells a ctx.month_col_idx := by
          rw [runRows_cons, hstep]
          exact runRows_cells_not_mem ctx rest sheet a ctx.month_col_idx hnotmem
        refine ⟨?_, ?_, ?_, ?_, ?_, ?_⟩
        · constructor
          · rintro ⟨v, hv⟩
            exact absurd hv (hwr v)
          · rintro ⟨hforce, _⟩
            rcases hforce with hf | hex
            · rw [hskip.2] at hf
              exact absurd hf (by simp)
            · rw [hskip.1] at hex
              exact absurd hex (by simp)
        · intro v hv
          exact absurd hv (hwr v)
        · intro _ _
          exact ⟨hfet0, hcells⟩
        · intro hf
          rw [hskip.2] at hf
          exact absurd hf (by simp)
        · intro _
          exact hcells
        · intro _
          exact hcells
      · have hstep := processOneRow_fetch ctx sheet a hid hskip
        have hcond : ctx.force_update = true ∨
            hasExistingValue (sheet.cells a ctx.month_col_idx) = false := by
          cases hF : ctx.force_update
          · cases hE : hasExistingValue (sheet.cells a ctx.month_col_idx)
            · exact Or.inr rfl
            · exact absurd ⟨hE, hF⟩ hskip
          · exact Or.inl rfl
        rcases hres : rowFetchResult ctx.oracles ctx.mock_api ctx.delay a with _ | v
        · -- fetch fails: one fetch logged, nothing written
          rw [hres] at hstep
          simp only at hstep
          have hwr : ∀ v, (a, v) ∉ (runRows ctx sheet (a :: rest)).2.2 := by
            intro v hmem
            rw [runRows_cons, hstep] at hmem
            exact hnotmem (runRows_writes_mem ctx rest _ (a, v) (by simpa using hmem))
          have hcells : ((runRows ctx sheet (a :: rest)).1).cells a ctx.month_col_idx =
              sheet.cells a ctx.month_col_idx := by
            rw [runRows_cons, hstep]
            exact runRows_cells_not_mem ctx rest sheet a ctx.month_col_idx hnotmem
          have hfet1 : (runRows ctx sheet (a :: rest)).2.1.count a = 1 := by
            rw [runRows_cons, hstep]
            have h0 : ((runRows ctx sheet rest).2.1).count a = 0 :=
              List.count_eq_zero.mpr
                (fun hmem => hnotmem (runRows_fetched_mem ctx rest _ a hmem))
            simp [List.count_append, h0, List.count_cons_self]
          refine ⟨?_, ?_, ?_, fun _ => hfet1, fun _ => hcells, fun _ => hcells⟩
          · constructor
            · rintro ⟨v, hv⟩
              exact absurd hv (hwr v)
            · rintro ⟨_, hsome⟩
              exact absurd hsome (by simp)
          · intro v hv
            exact absurd hv (hwr v)
          · intro hex hF
            exact absurd ⟨hex, hF⟩ hskip
        · -- fetch succeeds: one fetch logged, the cell is overwritten
          rw [hres] at hstep
          simp only at hstep
          have hwiff : ∀ v', ((a, v') ∈ (runRows ctx sheet (a :: rest)).2.2 ↔ v' = v) := by
            intro v'
            rw [runRows_cons, hstep]
            simp only [List.mem_append, List.mem_singleton, Prod.mk.injEq, true_and]
            constructor
            · rintro (h | h)
              · exact h
              · exact absurd (runRows_writes_mem ctx rest _ (a, v') h) hnotmem
            · exact fun h => Or.inl h
          have hcells : ((runRows ctx sheet (a :: rest)).1).cells a ctx.month_col_idx =
              some (.num v) := by
            rw [runRows_cons, hstep]
            have := runRows_cells_not_mem ctx rest
              (setCell sheet a ctx.month_col_idx (.num v)) a ctx.month_col_idx hnotmem
            rw [this]
            simp [setCell]
          have hfet1 : (runRows ctx sheet (a :: rest)).2.1.count a = 1 := by
            rw [runRows_cons, hstep]
            have h0 : ((runRows ctx (setCell sheet a ctx.month_col_idx (.num v))
                rest).2.1).count a = 0 :=
              List.count_eq_zero.mpr
                (fun hmem => hnotmem (runRows_fetched_mem ctx rest _ a hmem))
            simp [List.count_append, h0, List.count_cons_self]
          refine ⟨?_, ?_, ?_, fun _ => hfet1, ?_, ?_⟩
          · exact ⟨fun _ => ⟨hcond, rfl⟩, fun _ => ⟨v, (hwiff v).mpr rfl⟩⟩
          · intro v' hv'
            have hvv : v' = v := (hwiff v').mp hv'
            subst hvv
            exact ⟨rfl, hcells⟩
          · intro hex hF
            exact absurd ⟨hex, hF⟩ hskip
          · intro habs
            exact absurd habs (by simp)
          · intro habs
            exact absurd ⟨hcond, rfl⟩ habs
    · -- a different row is processed first: nothing about `row` changes
      have hcount' : rest.count row = 1 := by
        rw [List.count_cons] at hcount
        simpa [hne] using hcount
      have hpremc : ((processOneRow ctx sheet a).1).cells row ctx.month_col_idx =
          sheet.cells row ctx.month_col_idx :=
        processOneRow_cells_other ctx sheet a row ctx.month_col_idx (Ne.symm hne)
      have hid' : truthy (((processOneRow ctx sheet a).1).cells row ctx.id_col_idx)
          = true := by
        rw [processOneRow_cells_other ctx sheet a row ctx.id_col_idx (Ne.symm hne)]
        exact hid
      have spec := ih (processOneRow ctx sheet a).1 hcount' hid'
      rw [hpremc] at spec
      have hstepf : row ∉ (processOneRow ctx sheet a).2.1 := fun hmem =>
        (Ne.symm hne) ((processOneRow_log_mem ctx sheet a).1 row hmem)
      have hstepw : ∀ v, (row, v) ∉ (processOneRow ctx sheet a).2.2 := fun v hmem =>
        (Ne.symm hne) ((processOneRow_log_mem ctx sheet a).2 (row, v) hmem)
      have hfeteq : (runRows ctx sheet (a :: rest)).2.1.count row =
          ((runRows ctx (processOneRow ctx sheet a).1 rest).2.1).count row := by
        rw [runRows_cons]
        simp only [List.count_append]
        rw [List.count_eq_zero.mpr hstepf]
        omega
      have hwiff : ∀ v, ((row, v) ∈ (runRows ctx sheet (a :: rest)).2.2 ↔
          (row, v) ∈ (runRows ctx (processOneRow ctx sheet a).1 rest).2.2) := by
        intro v
        rw [runRows_cons]
        simp only [List.mem_append]
        exact ⟨fun h => h.resolve_left (hstepw v), Or.inr⟩
      have hcelleq : ∀ c, ((runRows ctx sheet (a :: rest)).1).cells row c =
          ((runRows ctx (processOneRow ctx sheet a).1 rest).1).cells row c := by
        intro c
        rw [runRows_cons]
      refine ⟨?_, ?_, ?_, ?_, ?_, ?_⟩
      · exact (exists_congr hwiff).trans spec.1
      · intro v hv
        have h := spec.2.1 v ((hwiff v).mp hv)
        exact ⟨h.1, (hcelleq ctx.month_col_idx).trans h.2⟩
      · intro hex hF
        have h := spec.2.2.1 hex hF
        exact ⟨hfeteq.trans h.1, (hcelleq ctx.month_col_idx).trans h.2⟩
      · intro hF
        exact hfeteq.trans (spec.2.2.2.1 hF)
      · intro hn
        exact (hcelleq ctx.month_col_idx).trans (spec.2.2.2.2.1 hn)
      · intro hn
        exact (hcelleq ctx.month_col_idx).trans (spec.2.2.2.2.2 hn)

/-- C1 witness: a one-row sheet with an empty month cell in mock mode
under force-update. -/
theorem c1_witness :
    ([2] : List Nat).count 2 = 1 ∧
    truthy (tinySheet.cells 2 tinyCtx.id_col_idx) = true ∧
    (tinyCtx.force_update = true → (runRows tinyCtx tinySheet [2]).2.1.count 2 = 1) :=
  ⟨by decide, by decide,
   (c1_update_policy tinyCtx [2] tinySheet 2 (by decide) (by decide)).2.2.2.1⟩

/-- C2: the retry ceiling is 7 attempts inclusive of a succeeding attempt.
With connection errors on the first 6 attempts and success on the 7th,
the fetch returns the body after exactly 7 attempts and `process_row`
returns its converted value; with connection errors on every attempt the
fetch raises the exhausted-retries error after exactly 7 attempts,
`process_row` returns `none`, and the row loop body leaves the sheet
unchanged and records no write for that row. -/
theorem c2_retry_ceiling (o o2 : Oracle) (p : Payload) (d : ℚ) (resp : ApiResponse)
    (hfail : ∀ k, k < 6 → o.http k = .connectionError)
    (hok : o.http 6 = .ok resp)
    (hall : ∀ k, o2.http k = .connectionError) :
    (make_api_request o p false d).1 = .ok resp ∧
    numAttempts (make_api_request o p false d).2 = 7 ∧
    process_row o p false d = seconds_to_minutes (extract_mean_seconds resp) ∧
    (make_api_request o2 p false d).1 = .error .exhaustedConnection ∧
    numAttempts (make_api_request o2 p false d).2 = 7 ∧
    process_row o2 p false d = none ∧
    (∀ (ctx : RowCtx) (sheet : Sheet) (row : Nat),
      ctx.oracles row = o2 → ctx.mock_api = false → ctx.delay = d →
      (processOneRow ctx sheet row).1 = sheet ∧
      (processOneRow ctx sheet row).2.2 = []) := by
  have h0 := hfail 0 (by norm_num)
  have h1 := hfail 1 (by norm_num)
  have h2 := hfail 2 (by norm_num)
  have h3 := hfail 3 (by norm_num)
  have h4 := hfail 4 (by norm_num)
  have h5 := hfail 5 (by norm_num)
  have hnone : ∀ p' : Payload, process_row o2 p' false d = none := by
    intro p'
    simp [process_row, make_api_request, apiLoop, max_retries, hall]
  refine ⟨?_, ?_, ?_, ?_, ?_, hnone p, ?_⟩
  · simp [make_api_request, apiLoop, max_retries, h0, h1, h2, h3, h4, h5, hok]
  · simp [make_api_request, apiLoop, max_retries, h0, h1, h2, h3, h4, h5, hok,
      numAttempts, isThrottle]
  · simp [process_row, make_api_request, apiLoop, max_retries,
      h0, h1, h2, h3, h4, h5, hok]
  · simp [make_api_request, apiLoop, max_retries, hall]
  · simp [make_api_request, apiLoop, max_retries, hall, numAttempts, isThrottle]
  · intro ctx sheet row ho hm hd
    by_cases ht : truthy (sheet.cells row ctx.id_col_idx) = false
    · simp [processOneRow, ht]
    · by_cases hs : hasExistingValue (sheet.cells row ctx.month_col_idx) = true ∧
          ctx.force_update = false
      · simp [processOneRow, ht, hs]
      · simp [processOneRow, ht, hs, ho, hm, hd, hnone]

/-- C2 witness: the two concrete oracles (six connection failures then a
success; always failing). -/
theorem c2_witness :
    process_row connThenOkOracle emptyPayload false 1 =
      seconds_to_minutes (extract_mean_seconds demoResp) ∧
    process_row connFailOracle emptyPayload false 1 = none :=
  ⟨(c2_retry_ceiling connThenOkOracle connFailOracle emptyPayload 1 demoResp
      (fun k hk => by simp [connThenOkOracle, hk]) (by simp [connThenOkOracle])
      (fun _ => rfl)).2.2.1,
   (c2_retry_ceiling connThenOkOracle connFailOracle emptyPayload 1 demoResp
      (fun k hk => by simp [connThenOkOracle, hk]) (by simp [connThenOkOracle])
      (fun _ => rfl)).2.2.2.2.2.1⟩

/-- C3: an HTTP 429 does not raise: the loop sleeps the provider-supplied
`Retry-After` (falling back to the current backoff), doubles the backoff
capped at 120, increments the attempt counter and retries; on all-429
responses it still fails after the maximum of 7 attempts. -/
theorem c3_rate_limited_handling (o : Oracle) (d : ℚ) (ra : Option Nat)
    (fuel rc rd : Nat) (tr : List SleepEvent)
    (h : o.http rc = .rateLimited ra)
    (o2 : Oracle) (p : Payload) (ra2 : Option Nat)
    (hall : ∀ k, o2.http k = .rateLimited ra2) :
    apiLoop o d (fuel + 1) rc rd tr =
      apiLoop o d fuel (rc + 1) (min (rd * 2) 120)
        ((tr ++ [.throttle d]) ++ [.rateLimitWait (ra.getD rd)]) ∧
    (make_api_request o2 p false d).1 = .error .exhaustedLoop ∧
    numAttempts (make_api_request o2 p false d).2 = 7 ∧
    process_row o2 p false d = none := by
  refine ⟨by simp only [apiLoop, h], ?_, ?_, ?_⟩
  · simp [make_api_request, apiLoop, max_retries, hall]
  · simp [make_api_request, apiLoop, max_retries, hall, numAttempts, isThrottle]
  · simp [process_row, make_api_request, apiLoop, max_retries, hall]

/-- C3 witness: the concrete always-429 oracle with `Retry-After: 9`. -/
theorem c3_witness :
    (apiLoop rateLimitOracle 1 1 0 3 [] =
      apiLoop rateLimitOracle 1 0 1 (min (3 * 2) 120)
        (([] ++ [.throttle 1]) ++ [.rateLimitWait ((some 9).getD 3)])) ∧
    process_row rateLimitOracle emptyPayload false 1 = none :=
  ⟨(c3_rate_limited_handling rateLimitOracle 1 (some 9) 0 0 3 [] rfl
      rateLimitOracle emptyPayload (some 9) (fun _ => rfl)).1,
   (c3_rate_limited_handling rateLimitOracle 1 (some 9) 0 0 3 [] rfl
      rateLimitOracle emptyPayload (some 9) (fun _ => rfl)).2.2.2⟩

/-- C7: a failed run-level precondition (missing file, missing month
column, missing token outside mock mode) aborts the run before any row
is processed and nothing is ever saved to the spreadsheet file. -/
theorem c7_run_preconditions_abort (env : Env) (oracles : Nat → Oracle)
    (sheet : Sheet) (mock_api : Bool) (month : String) (force_update : Bool)
    (delay : ℚ) (start_row end_row : Option Nat) (verify_ssl : Bool) :
    (env.file_exists = false →
      fetch_and_update_pagerduty_metrics env oracles sheet mock_api month
        force_update delay start_row end_row verify_ssl =
          (.abortedFileMissing, [], [])) ∧
    ((headersList sheet).findIdx?
        (fun h => decide (h = some (CellVal.str month))) = none →
      savedFile (fetch_and_update_pagerduty_metrics env oracles sheet mock_api month
          force_update delay start_row end_row verify_ssl).1 = none ∧
      (fetch_and_update_pagerduty_metrics env oracles sheet mock_api month
          force_update delay start_row end_row verify_ssl).2.1 = [] ∧
      (fetch_and_update_pagerduty_metrics env oracles sheet mock_api month
          force_update delay start_row end_row verify_ssl).2.2 = []) ∧
    (env.api_token = none → mock_api = false →
      savedFile (fetch_and_update_pagerduty_metrics env oracles sheet mock_api month
          force_update delay start_row end_row verify_ssl).1 = none ∧
      (fetch_and_update_pagerduty_metrics env oracles sheet mock_api month
          force_update delay start_row end_row verify_ssl).2.1 = [] ∧
      (fetch_and_update_pagerduty_metrics env oracles sheet mock_api month
          force_update delay start_row end_row verify_ssl).2.2 = []) := by
  refine ⟨?_, ?_, ?_⟩
  · intro hf
    simp [fetch_and_update_pagerduty_metrics, hf]
  · intro hmon
    by_cases hf : env.file_exists = false
    · simp [fetch_and_update_pagerduty_metrics, hf, savedFile]
    · rcases hid : (headersList sheet).findIdx?
          (fun h => decide (h = some (CellVal.str "id"))) with _ | i
      · simp [fetch_and_update_pagerduty_metrics, hf, hid, savedFile]
      · simp [fetch_and_update_pagerduty_metrics, hf, hid, hmon, savedFile]
  · intro htok hmock
    by_cases hf : env.file_exists = false
    · simp [fetch_and_update_pagerduty_metrics, hf, savedFile]
    · rcases hid : (headersList sheet).findIdx?
          (fun h => decide (h = some (CellVal.str "id"))) with _ | i
      · simp [fetch_and_update_pagerduty_metrics, hf, hid, savedFile]
      · rcases hmon : (headersList sheet).findIdx?
            (fun h => decide (h = some (CellVal.str month))) with _ | j
        · simp [fetch_and_update_pagerduty_metrics, hf, hid, hmon, savedFile]
        · simp [fetch_and_update_pagerduty_metrics, hf, hid, hmon, htok, hmock,
            savedFile]

/-- C7 witness: the missing-file environment aborts with nothing done. -/
theorem c7_witness :
    fetch_and_update_pagerduty_metrics noFileEnv (fun _ => demoOracle) demoSheet
      true "Jan" false 1 none none true = (.abortedFileMissing, [], []) :=
  (c7_run_preconditions_abort noFileEnv (fun _ => demoOracle) demoSheet true "Jan"
    false 1 none none true).1 rfl

/-- C8: the row range defaults to `[2, max_row]`, caller bounds only ever
narrow it (a nonzero start above 2 and a nonzero end below `max_row` are
adopted, anything else leaves the default), and with `start_row = 5`,
`end_row = 5` on a 100-row sheet exactly row 5 is processed. -/
theorem c8_row_range_resolution (mr s e : Nat) (so eo : Option Nat) :
    resolveRowRange none none mr = (2, mr) ∧
    2 ≤ (resolveRowRange so eo mr).1 ∧
    (resolveRowRange so eo mr).2 ≤ mr ∧
    (2 < s → (resolveRowRange (some s) eo mr).1 = s) ∧
    (¬ 2 < s → (resolveRowRange (some s) eo mr).1 = 2) ∧
    (0 < e → e < mr → (resolveRowRange so (some e) mr).2 = e) ∧
    (¬ e < mr → (resolveRowRange so (some e) mr).2 = mr) ∧
    rowRangeList 5 5 = [5] ∧
    (fetch_and_update_pagerduty_metrics demoEnv (fun _ => demoOracle) demoSheet
        true "Jan" false 1 (some 5) (some 5) true).2.1 = [5] := by
  refine ⟨rfl, ?_, ?_, ?_, ?_, ?_, ?_, rfl, rfl⟩
  · cases so <;> simp [resolveRowRange] <;> split_ifs <;> omega
  · cases so <;> cases eo <;> simp [resolveRowRange] <;> split_ifs <;> omega
  · intro hs
    cases eo <;> simp [resolveRowRange] <;> omega
  · intro hs
    cases eo <;> simp [resolveRowRange] <;> omega
  · intro he1 he2
    cases so <;> simp [resolveRowRange] <;> omega
  · intro he
    cases so <;> simp [resolveRowRange] <;> omega

/-- C8 witness: the concrete 5..5 bounds on the 100-row sheet. -/
theorem c8_witness :
    (resolveRowRange (some 5) (some 5) 100).1 = 5 :=
  (c8_row_range_resolution 100 5 5 (some 5) (some 5)).2.2.2.1 (by norm_num)

end MTTA
